import Mathlib

/-!
Verification development for the opencode status plugin.

The definitions below are a shallow embedding of the plugin's source:
the centralized HTTP client (timeout/retry/validation), the shared
utility functions (progress bar, masking, error wrapping), the provider
factory, representative provider adapters (Zhipu, Kimi, Anthropic) and
the aggregator tool.  JavaScript strings are modelled as Lean `String`
(with JS-specific operations such as `startsWith`, truthiness and
`slice` given explicit models on the character data), JS numbers as
`Nat`/`Int`/`Rat` as appropriate, thrown exceptions as `Except` values,
and network I/O as an explicit transport argument mapping the attempt
index to that attempt's outcome.  Locale-dependent pieces (the
translation table, `toLocaleString`, `Date.now`) are passed as explicit
parameters, matching the spec's treatment of the locale table as an
external collaborator.
-/

/-- Model of JS `String.prototype.startsWith`: a prefix test on the
character sequence. -/
def jsStartsWith (s p : String) : Bool :=
  p.data.isPrefixOf s.data

/-- JS falsiness of a `string | undefined | null` value: `undefined`,
`null` and the empty string are falsy. -/
def jsFalsyStr (o : Option String) : Bool :=
  match o with
  | none => true
  | some s => s == ""

-- ============================================================================
-- http client (src/unnamed/part_008)
-- ============================================================================

/-- Constant `DEFAULT_RETRIES` from the HTTP client. -/
def DEFAULT_RETRIES : Nat := 3

/-- Constant `DEFAULT_TIMEOUT_MS` from the HTTP client. -/
def DEFAULT_TIMEOUT_MS : Nat := 30000

/-- Source `isRetryableError(error, status)`.  The `error` argument is
unused by the source; the classification depends only on the optional
status code: no status (network/timeout failure) is retryable and
otherwise only 5xx is. -/
def isRetryableError (status : Option Nat) : Bool :=
  match status with
  | none => true
  | some s => decide (500 ≤ s) && decide (s < 600)

/-- Source `getBackoffDelay(retryAttempt) = 1000 * Math.pow(2, retryAttempt)`. -/
def getBackoffDelay (retryAttempt : Nat) : Nat :=
  1000 * 2 ^ retryAttempt

/-- Source `wrapErrorWithContext`: returns the message unchanged when it
already starts with the `[context]` prefix, otherwise prepends
`[context] `.  (The source copies `name`/`stack` onto the new `Error`;
only the message is observable here.) -/
def wrapErrorWithContext (msg context : String) : String :=
  if jsStartsWith msg ("[" ++ context ++ "]") then msg
  else "[" ++ context ++ "] " ++ msg

/-- Source `validateResponse(data, schema, context)` from utils.ts.  A
Zod schema is modelled as a function returning either the parsed value
or the `result.error.message` detail. -/
def validateResponse {β α : Type} (data : β) (schema : β → Except String α)
    (context : String) : Except String α :=
  match schema data with
  | .error m => .error ("[" ++ context ++ "] Invalid API response: " ++ m)
  | .ok v => .ok v

/-- One received HTTP response: status, status text, the raw body text
(used in error messages) and the decoded body handed to validation. -/
structure HttpRsp (β : Type) where
  status : Nat
  statusText : String
  bodyText : String
  body : β
deriving Repr

/-- Outcome of one `fetch` call: either a response was received, or the
call threw (network error or timeout abort). -/
inductive FetchResult (β : Type) where
  | rsp (r : HttpRsp β)
  | fail (msg : String)
deriving Repr

/-- The message of the `HTTPError` built by `requestInternal` for a
non-2xx response. -/
def httpErrorMessage {β : Type} (context : String) (r : HttpRsp β) : String :=
  "[" ++ context ++ "] HTTP error " ++ toString r.status ++ ": " ++
    r.statusText ++ " - " ++ r.bodyText

/-- The body of one iteration of `requestInternal`'s try block: perform
the fetch, record the status, raise on non-2xx, otherwise decode and
validate.  An error carries the message together with the value
`lastStatus` has after the iteration (unchanged when the fetch itself
threw, the received status otherwise). -/
def attemptStep {β α : Type} (transport : Nat → FetchResult β)
    (schema : β → Except String α) (context : String)
    (attempt : Nat) (lastStatus : Option Nat) :
    Except (String × Option Nat) α :=
  match transport attempt with
  | .fail m => .error (m, lastStatus)
  | .rsp r =>
    if 200 ≤ r.status ∧ r.status < 300 then
      match validateResponse r.body schema context with
      | .ok v => .ok v
      | .error m => .error (m, some r.status)
    else
      .error (httpErrorMessage context r, some r.status)

/-- Observable outcome of a whole `requestInternal` run: the final
result, the number of transport calls made, and the backoff waits
performed between attempts, in order. -/
structure ExecOutcome (α : Type) where
  result : Except String α
  calls : Nat
  delays : List Nat
deriving Repr

/-- The retry loop of `requestInternal`, with the remaining loop
iterations as explicit fuel (the source iterates `attempt = 0 ..
retries`).  The fuel-0 case models the unreachable throw after the
loop. -/
def requestLoop {β α : Type} (transport : Nat → FetchResult β)
    (schema : β → Except String α) (context : String) (retries : Nat) :
    Nat → Nat → Option Nat → Option String → ExecOutcome α
  | 0, _, _, lastError =>
    ⟨.error (wrapErrorWithContext (lastError.getD "Unknown error occurred") context), 0, []⟩
  | fuel + 1, attempt, lastStatus, _ =>
    match attemptStep transport schema context attempt lastStatus with
    | .ok v => ⟨.ok v, 1, []⟩
    | .error (m, newStatus) =>
      if isRetryableError newStatus ∧ attempt < retries then
        let rest := requestLoop transport schema context retries fuel
          (attempt + 1) newStatus (some m)
        ⟨rest.result, rest.calls + 1, getBackoffDelay attempt :: rest.delays⟩
      else
        ⟨.error (wrapErrorWithContext m context), 1, []⟩

/-- Source `requestInternal(options)`: run the retry loop from attempt 0
with no status and no error recorded. -/
def requestInternal {β α : Type} (transport : Nat → FetchResult β)
    (schema : β → Except String α) (context : String) (retries : Nat) :
    ExecOutcome α :=
  requestLoop transport schema context retries (retries + 1) 0 none none

example :
    (requestInternal (β := Unit) (α := Unit)
      (fun _ => .rsp ⟨404, "Not Found", "nf", ()⟩)
      (fun _ => Except.error "bad") "X" 3).calls = 1 := by
  decide

example :
    (requestInternal (β := Unit) (α := Unit) (fun _ => .fail "boom")
      (fun _ => Except.error "bad") "X" 2).calls = 3 := by
  decide

example :
    (requestInternal (β := Unit) (α := Unit) (fun _ => .fail "boom")
      (fun _ => Except.error "bad") "X" 2).delays = [1000, 2000] := by
  decide

-- ============================================================================
-- utils (src/plugin/lib/utils.ts)
-- ============================================================================

/-- Model of JS `Math.round` on an exact rational: round half toward
positive infinity. -/
def jsRound (x : ℚ) : Int :=
  Int.floor (x + 1 / 2)

/-- Source `createProgressBar(remainPercent, width)`: clamp the percent
to [0, 100], fill `Math.round(safePercent / 100 * width)` glyphs and pad
with empty glyphs to `width`. -/
def createProgressBar (remainPercent : ℚ) (width : Nat) : String :=
  let safePercent : ℚ := max 0 (min 100 remainPercent)
  let filled : Nat := (jsRound (safePercent / 100 * width)).toNat
  let empty : Nat := width - filled
  String.mk (List.replicate filled '█') ++ String.mk (List.replicate empty '░')

/-- Source `maskString(str, showChars)`: return the string unchanged
when its length is at most `2 * showChars`, otherwise
`str.slice(0, showChars) + "****" + str.slice(-showChars)`.  JS
`slice(-0)` is `slice(0)` and yields the whole string, hence the
`showChars = 0` case of the final slice. -/
def maskString (s : String) (showChars : Nat) : String :=
  if s.length ≤ showChars * 2 then s
  else
    String.mk (s.data.take showChars) ++ "****" ++
      String.mk (if showChars = 0 then s.data else s.data.drop (s.data.length - showChars))

/-- The translation-table entries used by `formatDuration`, plus the
join convention (`currentLang === "en"` joins with a space).  The
locale table is an external collaborator, so its entries are
parameters. -/
structure DurationStrings where
  englishJoin : Bool
  days : Nat → String
  hours : Nat → String
  minutes : Nat → String

/-- Source `formatDuration(seconds)`: days/hours/minutes parts, dropping
zero-valued larger units but always emitting minutes when nothing else
is present. -/
def formatDuration (ds : DurationStrings) (seconds : Nat) : String :=
  let days := seconds / 86400
  let hours := seconds % 86400 / 3600
  let minutes := seconds % 3600 / 60
  let parts :=
    (if days > 0 then [ds.days days] else []) ++
      (if hours > 0 then [ds.hours hours] else [])
  let parts := if minutes > 0 ∨ parts = [] then parts ++ [ds.minutes minutes] else parts
  String.intercalate (if ds.englishJoin then " " else "") parts

/-- A provider query outcome (`QueryResult` from types.ts): success
flag, optional formatted output, optional error message. -/
structure QueryResult where
  success : Bool
  output : Option String
  error : Option String
deriving DecidableEq, Repr

/-- Source `handleProviderError(err, context)` from utils.ts: build a
failure record whose message is the error's message prefixed,
unconditionally, with `[context] `. -/
def handleProviderError (message context : String) : QueryResult :=
  ⟨false, none, some ("[" ++ context ++ "] " ++ message)⟩

-- ============================================================================
-- provider factory (src/unnamed/part_003, first factory variant)
-- ============================================================================

/-- Source `createProviderQuery(config)` applied to an `apiKey`: `null`
when the key is absent or falsy, otherwise run the HTTP executor with
the config's schema and context and either transform the validated data
or convert the caught error through `handleProviderError`.  The second
component counts transport calls. -/
def createProviderQuery {β α : Type} (name : String)
    (schema : β → Except String α) (transform : α → String → String)
    (transport : Nat → FetchResult β) (apiKey : Option String) :
    Option QueryResult × Nat :=
  match apiKey with
  | none => (none, 0)
  | some key =>
    if key == "" then (none, 0)
    else
      let exec := requestInternal transport schema name DEFAULT_RETRIES
      match exec.result with
      | .ok data => (some ⟨true, some (transform data key), none⟩, exec.calls)
      | .error m => (some (handleProviderError m name), exec.calls)

/-- A response as seen by the header-based factory: the status code and
the headers object (`fetchWithTimeout` performs no `response.ok`
check). -/
structure HeaderRsp (η : Type) where
  status : Nat
  headers : η
deriving Repr

/-- Source `createProviderQueryWithHeaders(config)` applied to an
`apiKey` and the outcome of the single `fetchWithTimeout` call: `null`
for a falsy key; on any received response, parse the rate-limit headers
and return a success record (feeding `null` to the transform when the
headers are absent); a failure record only when the fetch itself threw.
The second component counts fetch calls. -/
def createProviderQueryWithHeaders {η α : Type} (name : String)
    (parseHeaders : η → Option α) (transform : Option α → String → String)
    (apiKey : Option String) (fetchResult : Except String (HeaderRsp η)) :
    Option QueryResult × Nat :=
  match apiKey with
  | none => (none, 0)
  | some key =>
    if key == "" then (none, 0)
    else
      match fetchResult with
      | .error m => (some (handleProviderError m name), 1)
      | .ok r =>
        match parseHeaders r.headers with
        | none => (some ⟨true, some (transform none key), none⟩, 1)
        | some d => (some ⟨true, some (transform (some d) key), none⟩, 1)

-- ============================================================================
-- anthropic adapter (src/unnamed/part_003, first document)
-- ============================================================================

/-- The three `anthropic-ratelimit-*` header values as returned by
`headers.get` (absent or a string). -/
structure AnthropicHeaders where
  requestsRemaining : Option String
  tokensRemaining : Option String
  tokensReset : Option String
deriving Repr

/-- Parsed Anthropic rate-limit data. -/
structure AnthropicRateLimits where
  requestsRemaining : Int
  tokensRemaining : Int
  tokensReset : Option Int
deriving Repr

/-- Source `anthropicConfig.parseHeaders`: `null` when both remaining
headers are falsy, otherwise each field is `parseInt`ed (0 or
`undefined` for falsy values).  `parseInt` is locale/format dependent
and passed as the parameter `pint`. -/
def anthropicParseHeaders (pint : String → Int) (h : AnthropicHeaders) :
    Option AnthropicRateLimits :=
  if jsFalsyStr h.requestsRemaining && jsFalsyStr h.tokensRemaining then none
  else
    some ⟨(if jsFalsyStr h.requestsRemaining then 0 else pint (h.requestsRemaining.getD "")),
      (if jsFalsyStr h.tokensRemaining then 0 else pint (h.tokensRemaining.getD "")),
      (if jsFalsyStr h.tokensReset then none else some (pint (h.tokensReset.getD "")))⟩

/-- Translation-table entries used by `formatAnthropicUsage`
(parameters; the locale table is an external collaborator). -/
structure AnthropicStrings where
  account : String
  noQuotaData : String
  rateLimitTitle : String
  requestsRemainingLabel : String
  tokensRemainingLabel : String
  resetIn : String → String
  rateLimitNote : String

/-- Source `formatAnthropicUsage(rateLimits, apiKey)`.  `localeNum`
models `Number.prototype.toLocaleString` and `now` the value of
`Math.floor(Date.now() / 1000)`; a `tokensReset` of 0 is falsy in JS
and skips the reset block. -/
def formatAnthropicUsage (strs : AnthropicStrings) (ds : DurationStrings)
    (localeNum : Int → String) (now : Int)
    (rateLimits : Option AnthropicRateLimits) (apiKey : String) : String :=
  let maskedKey := maskString apiKey 4
  let title := strs.account ++ " " ++ maskedKey ++ " (Anthropic Claude)"
  match rateLimits with
  | none => String.intercalate "\n" [title, "", strs.noQuotaData]
  | some rl =>
    let base := [title, "", strs.rateLimitTitle, "",
      strs.requestsRemainingLabel ++ ": " ++ localeNum rl.requestsRemaining,
      strs.tokensRemainingLabel ++ ": " ++ localeNum rl.tokensRemaining]
    let resetLines :=
      match rl.tokensReset with
      | some ts =>
        if ts ≠ 0 then
          let resetSeconds := max 0 (ts - now)
          if resetSeconds > 0 then [strs.resetIn (formatDuration ds resetSeconds.toNat)]
          else []
        else []
      | none => []
    String.intercalate "\n" (base ++ resetLines ++ ["", strs.rateLimitNote])

-- ============================================================================
-- zhipu adapter (src/plugin/lib/zhipu.ts)
-- ============================================================================

/-- Zhipu credential record: `{type: "api", key?: string}`. -/
structure ZhipuAuthData where
  type : String
  key : Option String
deriving Repr

/-- Decoded body of the quota endpoint; the `limits` payload is only
consumed by the formatter, so its type is a parameter. -/
structure ZhipuBody (δ : Type) where
  code : Int
  msg : String
  success : Bool
  data : δ
deriving Repr

/-- One received response of the single `fetchWithTimeout` call made by
`fetchUsage`. -/
structure ZhipuRsp (δ : Type) where
  status : Nat
  bodyText : String
  body : ZhipuBody δ
deriving Repr

/-- Source `fetchUsage(apiKey, config)`: on a non-ok status raise
`config.apiError(status, text)`; on `!data.success || data.code !== 200`
raise `config.apiError(data.code, data.msg || "Unknown error")`;
otherwise return the body. -/
def fetchUsage {δ : Type} (apiError : Int → String → String)
    (fr : Except String (ZhipuRsp δ)) : Except String (ZhipuBody δ) :=
  match fr with
  | .error m => .error m
  | .ok r =>
    if 200 ≤ r.status ∧ r.status < 300 then
      if r.body.success && r.body.code == 200 then .ok r.body
      else .error (apiError r.body.code (if r.body.msg == "" then "Unknown error" else r.body.msg))
    else .error (apiError (Int.ofNat r.status) r.bodyText)

/-- Source `queryUsage(authData, config)` from zhipu.ts: `null` when the
credential is absent, not of type "api", or has a falsy key, making no
network call (second component 0); otherwise one call whose outcome is
converted to a success or failure record. The formatter
`formatZhipuUsage` is locale dependent and passed as a parameter. -/
def queryUsage {δ : Type} (formatOutput : ZhipuBody δ → String → String)
    (apiError : Int → String → String) (authData : Option ZhipuAuthData)
    (fr : Except String (ZhipuRsp δ)) : Option QueryResult × Nat :=
  match authData with
  | none => (none, 0)
  | some a =>
    if a.type == "api" && !jsFalsyStr a.key then
      match fetchUsage apiError fr with
      | .ok d => (some ⟨true, some (formatOutput d (a.key.getD "")), none⟩, 1)
      | .error m => (some ⟨false, none, some m⟩, 1)
    else (none, 0)

-- ============================================================================
-- kimi adapter (src/plugin/lib/kimi.ts)
-- ============================================================================

/-- Kimi credential record: `{key: string}`. -/
structure KimiAuth where
  key : String
deriving Repr

/-- Decoded Kimi balance body; the optional `data` payload is only
consumed by the formatter, so its type is a parameter. -/
structure KimiBody (δ : Type) where
  code : Int
  msg : String
  data : δ
deriving Repr

/-- One received response of the single `fetchWithTimeout` call made by
`fetchKimiBalance`. -/
structure KimiRsp (δ : Type) where
  status : Nat
  bodyText : String
  body : KimiBody δ
deriving Repr

/-- Source `fetchKimiBalance(apiKey, config)`: on a non-ok status raise
`config.apiError(status, text)`; on `data.code !== 200` raise
`config.apiError(data.code, data.msg || "Unknown error")`; otherwise
return the body. -/
def fetchKimiBalance {δ : Type} (apiError : Int → String → String)
    (fr : Except String (KimiRsp δ)) : Except String (KimiBody δ) :=
  match fr with
  | .error m => .error m
  | .ok r =>
    if 200 ≤ r.status ∧ r.status < 300 then
      if r.body.code == 200 then .ok r.body
      else .error (apiError r.body.code (if r.body.msg == "" then "Unknown error" else r.body.msg))
    else .error (apiError (Int.ofNat r.status) r.bodyText)

/-- Source `queryKimiWithConfig(authData, config)`: `null` for an
absent or falsy key; otherwise convert the fetch outcome into a success
record (via the locale-dependent formatter parameter) or a failure
record carrying the caught error's message. -/
def queryKimiWithConfig {δ : Type} (formatOutput : KimiBody δ → String → String)
    (apiError : Int → String → String) (authData : Option KimiAuth)
    (fr : Except String (KimiRsp δ)) : Option QueryResult :=
  match authData with
  | none => none
  | some a =>
    if a.key == "" then none
    else
      match fetchKimiBalance apiError fr with
      | .ok balance => some ⟨true, some (formatOutput balance a.key), none⟩
      | .error m => some ⟨false, none, some m⟩

-- ============================================================================
-- aggregator (src/plugin/mystatus.ts)
-- ============================================================================

/-- Source `collectResult(result, title, results, errors)`: an absent
result touches neither list; a success with a truthy output appends a
separator (when needed), the title, a blank line and the output to
`results`; otherwise a truthy error string is appended to `errors`. -/
def collectResult (result : Option QueryResult) (title : String)
    (results errors : List String) : List String × List String :=
  match result with
  | none => (results, errors)
  | some r =>
    if r.success && !jsFalsyStr r.output then
      ((if results.length > 0 then results ++ [""] else results) ++
        [title, "", r.output.getD ""], errors)
    else if !jsFalsyStr r.error then
      (results, errors ++ [r.error.getD ""])
    else (results, errors)

/-- Translation-table entries used by the aggregator. -/
structure Msgs where
  authError : String → String → String
  noAccounts : String
  queryFailed : String
  openaiTitle : String
  zhipuTitle : String
  zaiTitle : String
  googleTitle : String

/-- The English table from i18n.ts, restricted to the aggregator's
entries. -/
def enMsgs : Msgs :=
  ⟨fun path err => "❌ Failed to read auth file: " ++ path ++ "\nError: " ++ err,
    "No configured accounts found.\n\nSupported account types:\n- OpenAI (Plus/Team/Pro subscribers)\n- Zhipu AI (Coding Plan)\n- Z.ai (Coding Plan)\n- Google Cloud (Antigravity)",
    "❌ Failed to query accounts:\n",
    "## OpenAI Account Quota",
    "## Zhipu AI Account Quota",
    "## Z.ai Account Quota",
    "## Google Cloud Account Quota"⟩

/-- Source `execute()` of the mystatus tool: read and parse auth.json
(returning `t.authError` on failure), run the four provider queries,
collect results and errors, and join; when both lists are empty return
`t.noAccounts`.  The parse outcome and the four query functions are
inputs (the file read and network are effects). -/
def executeMyStatus {γ : Type} (msgs : Msgs) (authPath : String)
    (readAuth : Except String γ)
    (qOpenai qZhipu qZai : γ → Option QueryResult)
    (googleResult : Option QueryResult) : String :=
  match readAuth with
  | .error e => msgs.authError authPath e
  | .ok auth =>
    let s1 := collectResult (qOpenai auth) msgs.openaiTitle [] []
    let s2 := collectResult (qZhipu auth) msgs.zhipuTitle s1.1 s1.2
    let s3 := collectResult (qZai auth) msgs.zaiTitle s2.1 s2.2
    let s4 := collectResult googleResult msgs.googleTitle s3.1 s3.2
    if s4.1.length = 0 ∧ s4.2.length = 0 then msgs.noAccounts
    else
      let output := String.intercalate "\n" s4.1
      if s4.2.length > 0 then
        (if output == "" then output else output ++ "\n\n") ++
          msgs.queryFailed ++ String.intercalate "\n" s4.2
      else output

-- ============================================================================
-- helper lemmas: JS string prefixes and error wrapping
-- ============================================================================

lemma jsStartsWith_iff (s p : String) :
    jsStartsWith s p = true ↔ ∃ t, s.data = p.data ++ t := by
  simp only [jsStartsWith]
  simp only [ List.isPrefixOf_iff_prefix]
  constructor
  · rintro ⟨t, ht⟩
    exact ⟨t, ht.symm⟩
  · rintro ⟨t, ht⟩
    exact ⟨t, ht.symm⟩

lemma jsStartsWith_extend (p q r : String) (h : jsStartsWith q p = true) :
    jsStartsWith (q ++ r) p = true := by
  rcases (jsStartsWith_iff q p).mp h with ⟨t, ht⟩
  exact (jsStartsWith_iff (q ++ r) p).mpr ⟨t ++ r.data, by simp [ht]⟩

lemma jsStartsWith_ctx_lit (ctx lit : String) (u : List Char)
    (h : lit.data = ']' :: u) :
    jsStartsWith ("[" ++ ctx ++ lit) ("[" ++ ctx ++ "]") = true := by
  refine (jsStartsWith_iff _ _).mpr ⟨u, ?_⟩
  have hb : "]".data = [']'] := rfl
  simp [h, hb]

lemma wrapErrorWithContext_of_prefixed (ctx lit rest : String) (u : List Char)
    (h : lit.data = ']' :: u) :
    wrapErrorWithContext ("[" ++ ctx ++ lit ++ rest) ctx =
      "[" ++ ctx ++ lit ++ rest := by
  have hsw := jsStartsWith_extend _ _ rest (jsStartsWith_ctx_lit ctx lit u h)
  simp [wrapErrorWithContext, hsw]

lemma wrapErrorWithContext_httpError {β : Type} (ctx : String) (r : HttpRsp β) :
    wrapErrorWithContext (httpErrorMessage ctx r) ctx = httpErrorMessage ctx r := by
  have h1 : jsStartsWith ("[" ++ ctx ++ "] HTTP error ") ("[" ++ ctx ++ "]") = true :=
    jsStartsWith_ctx_lit ctx "] HTTP error " (" HTTP error ".data) rfl
  have h2 := jsStartsWith_extend _ _ (toString r.status) h1
  have h3 := jsStartsWith_extend _ _ ": " h2
  have h4 := jsStartsWith_extend _ _ r.statusText h3
  have h5 := jsStartsWith_extend _ _ " - " h4
  have h6 := jsStartsWith_extend _ _ r.bodyText h5
  simp only [httpErrorMessage, wrapErrorWithContext]
  rw [if_pos]
  exact h6

lemma wrapErrorWithContext_validation (ctx detail : String) :
    wrapErrorWithContext ("[" ++ ctx ++ "] Invalid API response: " ++ detail) ctx =
      "[" ++ ctx ++ "] Invalid API response: " ++ detail :=
  wrapErrorWithContext_of_prefixed ctx "] Invalid API response: " detail
    (" Invalid API response: ".data) rfl


-- ============================================================================
-- helper lemmas: the executor's single attempt
-- ============================================================================

lemma attemptStep_fail {β α : Type} (transport : Nat → FetchResult β)
    (schema : β → Except String α) (context : String) (i : Nat)
    (ls : Option Nat) (m : String) (h : transport i = .fail m) :
    attemptStep transport schema context i ls = .error (m, ls) := by
  simp [attemptStep, h]

lemma attemptStep_not_ok {β α : Type} (transport : Nat → FetchResult β)
    (schema : β → Except String α) (context : String) (i : Nat)
    (ls : Option Nat) (r : HttpRsp β) (h : transport i = .rsp r)
    (hs : ¬(200 ≤ r.status ∧ r.status < 300)) :
    attemptStep transport schema context i ls =
      .error (httpErrorMessage context r, some r.status) := by
  simp [attemptStep, h, hs]

lemma attemptStep_ok_valid {β α : Type} (transport : Nat → FetchResult β)
    (schema : β → Except String α) (context : String) (i : Nat)
    (ls : Option Nat) (r : HttpRsp β) (v : α) (h : transport i = .rsp r)
    (h2 : 200 ≤ r.status) (h3 : r.status < 300) (hv : schema r.body = .ok v) :
    attemptStep transport schema context i ls = .ok v := by
  simp [attemptStep, h, h2, h3, validateResponse, hv]

lemma attemptStep_ok_invalid {β α : Type} (transport : Nat → FetchResult β)
    (schema : β → Except String α) (context : String) (i : Nat)
    (ls : Option Nat) (r : HttpRsp β) (d : String) (h : transport i = .rsp r)
    (h2 : 200 ≤ r.status) (h3 : r.status < 300) (hv : schema r.body = .error d) :
    attemptStep transport schema context i ls =
      .error ("[" ++ context ++ "] Invalid API response: " ++ d, some r.status) := by
  simp [attemptStep, h, h2, h3, validateResponse, hv]

lemma attemptStep_rsp_error_status {β α : Type} {transport : Nat → FetchResult β}
    {schema : β → Except String α} {context : String} {i : Nat}
    {ls : Option Nat} {r : HttpRsp β} {m : String} {ns : Option Nat}
    (h : transport i = .rsp r)
    (hstep : attemptStep transport schema context i ls = .error (m, ns)) :
    ns = some r.status := by
  by_cases hok : 200 ≤ r.status ∧ r.status < 300
  · cases hv : schema r.body with
    | ok v =>
      rw [attemptStep_ok_valid transport schema context i ls r v h hok.1 hok.2 hv] at hstep
      cases hstep
    | error d =>
      rw [attemptStep_ok_invalid transport schema context i ls r d h hok.1 hok.2 hv] at hstep
      cases hstep
      rfl
  · rw [attemptStep_not_ok transport schema context i ls r h hok] at hstep
    cases hstep
    rfl

-- ============================================================================
-- helper lemmas: single unfoldings of the retry loop
-- ============================================================================

lemma requestLoop_step_ok {β α : Type} (transport : Nat → FetchResult β)
    (schema : β → Except String α) (context : String) (retries fuel attempt : Nat)
    (ls : Option Nat) (le : Option String) (v : α)
    (hstep : attemptStep transport schema context attempt ls = .ok v) :
    requestLoop transport schema context retries (fuel + 1) attempt ls le =
      ⟨.ok v, 1, []⟩ := by
  simp only [requestLoop, hstep]

lemma requestLoop_step_retry {β α : Type} (transport : Nat → FetchResult β)
    (schema : β → Except String α) (context : String) (retries fuel attempt : Nat)
    (ls : Option Nat) (le : Option String) (m : String) (ns : Option Nat)
    (hstep : attemptStep transport schema context attempt ls = .error (m, ns))
    (hc : isRetryableError ns = true ∧ attempt < retries) :
    requestLoop transport schema context retries (fuel + 1) attempt ls le =
      ⟨(requestLoop transport schema context retries fuel (attempt + 1) ns (some m)).result,
        (requestLoop transport schema context retries fuel (attempt + 1) ns (some m)).calls + 1,
        getBackoffDelay attempt ::
          (requestLoop transport schema context retries fuel (attempt + 1) ns (some m)).delays⟩ := by
  simp only [requestLoop, hstep, if_pos hc]

lemma requestLoop_step_stop {β α : Type} (transport : Nat → FetchResult β)
    (schema : β → Except String α) (context : String) (retries fuel attempt : Nat)
    (ls : Option Nat) (le : Option String) (m : String) (ns : Option Nat)
    (hstep : attemptStep transport schema context attempt ls = .error (m, ns))
    (hc : ¬(isRetryableError ns = true ∧ attempt < retries)) :
    requestLoop transport schema context retries (fuel + 1) attempt ls le =
      ⟨.error (wrapErrorWithContext m context), 1, []⟩ := by
  simp only [requestLoop, hstep, if_neg hc]


-- ============================================================================
-- helper lemmas: whole runs of the retry loop
-- ============================================================================

lemma requestLoop_calls_le {β α : Type} (transport : Nat → FetchResult β)
    (schema : β → Except String α) (context : String) (retries k : Nat)
    (r : HttpRsp β) (hk : transport k = .rsp r)
    (hns : ¬(500 ≤ r.status ∧ r.status < 600)) :
    ∀ fuel attempt ls le, attempt ≤ k →
      (requestLoop transport schema context retries fuel attempt ls le).calls ≤
        k + 1 - attempt := by
  intro fuel
  induction fuel with
  | zero =>
    intro attempt ls le _
    simp [requestLoop]
  | succ fuel ih =>
    intro attempt ls le hle
    cases hstep : attemptStep transport schema context attempt ls with
    | ok v =>
      rw [requestLoop_step_ok transport schema context retries fuel attempt ls le v hstep]
      dsimp only
      omega
    | error p =>
      obtain ⟨m, ns⟩ := p
      by_cases hcond : isRetryableError ns = true ∧ attempt < retries
      · by_cases hak : attempt = k
        · subst hak
          have hns2 := attemptStep_rsp_error_status hk hstep
          subst hns2
          exact absurd (by simpa [isRetryableError] using hcond.1) hns
        · have hrec := ih (attempt + 1) ns (some m) (by omega)
          rw [requestLoop_step_retry transport schema context retries fuel attempt
            ls le m ns hstep hcond]
          dsimp only
          omega
      · rw [requestLoop_step_stop transport schema context retries fuel attempt
          ls le m ns hstep hcond]
        dsimp only
        omega

lemma requestLoop_all_5xx {β α : Type} (transport : Nat → FetchResult β)
    (schema : β → Except String α) (context : String) (retries : Nat)
    (h : ∀ i, ∃ r, transport i = .rsp r ∧ 500 ≤ r.status ∧ r.status < 600) :
    ∀ fuel attempt ls le, attempt + fuel = retries + 1 →
      ∃ e, requestLoop transport schema context retries fuel attempt ls le =
        ⟨.error e, fuel, (List.range' attempt (fuel - 1)).map getBackoffDelay⟩ := by
  intro fuel
  induction fuel with
  | zero =>
    intro attempt ls le _
    exact ⟨wrapErrorWithContext (le.getD "Unknown error occurred") context,
      by simp [requestLoop]⟩
  | succ fuel ih =>
    intro attempt ls le hsum
    obtain ⟨r, hr, h5, h6⟩ := h attempt
    have hstep := attemptStep_not_ok transport schema context attempt ls r hr (by omega)
    by_cases hf : fuel = 0
    · subst hf
      have hc : ¬(isRetryableError (some r.status) = true ∧ attempt < retries) := by
        rintro ⟨-, hlt⟩
        omega
      refine ⟨wrapErrorWithContext (httpErrorMessage context r) context, ?_⟩
      rw [requestLoop_step_stop transport schema context retries 0 attempt ls le _ _
        hstep hc]
      simp
    · obtain ⟨fuel2, rfl⟩ : ∃ f, fuel = f + 1 := ⟨fuel - 1, by omega⟩
      have hc : isRetryableError (some r.status) = true ∧ attempt < retries := by
        refine ⟨by simp [isRetryableError]; omega, by omega⟩
      obtain ⟨e, he⟩ := ih (attempt + 1) (some r.status)
        (some (httpErrorMessage context r)) (by omega)
      refine ⟨e, ?_⟩
      rw [requestLoop_step_retry transport schema context retries (fuel2 + 1) attempt
        ls le _ _ hstep hc, he]
      dsimp only
      rw [show fuel2 + 1 + 1 - 1 = fuel2 + 1 by omega,
        show fuel2 + 1 - 1 = fuel2 by omega, List.range'_succ]
      simp

lemma requestLoop_success_after {β α : Type} (transport : Nat → FetchResult β)
    (schema : β → Except String α) (context : String) (retries b : Nat) (v : α)
    (h5 : ∀ j, j < b → ∃ r, transport j = .rsp r ∧ 500 ≤ r.status ∧ r.status < 600)
    (hb : ∃ r, transport b = .rsp r ∧ 200 ≤ r.status ∧ r.status < 300 ∧
      schema r.body = .ok v)
    (hbr : b ≤ retries) :
    ∀ fuel attempt ls le, attempt ≤ b → attempt + fuel = retries + 1 →
      requestLoop transport schema context retries fuel attempt ls le =
        ⟨.ok v, b - attempt + 1, (List.range' attempt (b - attempt)).map getBackoffDelay⟩ := by
  intro fuel
  induction fuel with
  | zero =>
    intro attempt ls le h1 h2
    exfalso
    omega
  | succ fuel ih =>
    intro attempt ls le hab hsum
    by_cases hak : attempt = b
    · subst hak
      obtain ⟨r, hr, h2, h3, hv⟩ := hb
      have hstep := attemptStep_ok_valid transport schema context attempt ls r v hr h2 h3 hv
      rw [requestLoop_step_ok transport schema context retries fuel attempt ls le v hstep]
      simp
    · have hlt : attempt < b := by omega
      obtain ⟨r, hr, h5a, h6a⟩ := h5 attempt hlt
      have hstep := attemptStep_not_ok transport schema context attempt ls r hr (by omega)
      have hc : isRetryableError (some r.status) = true ∧ attempt < retries := by
        refine ⟨by simp [isRetryableError]; omega, by omega⟩
      have hrec := ih (attempt + 1) (some r.status) (some (httpErrorMessage context r))
        (by omega) (by omega)
      rw [requestLoop_step_retry transport schema context retries fuel attempt ls le _ _
        hstep hc, hrec]
      dsimp only
      simp only [ExecOutcome.mk.injEq]
      refine ⟨trivial, by omega, ?_⟩
      rw [show b - attempt = b - (attempt + 1) + 1 by omega, List.range'_succ]
      simp

-- ============================================================================
-- claim theorems: the HTTP executor
-- ============================================================================

/-- C1: an attempt's outcome is classified retryable iff no response was
received (no status) or the status is in [500, 600); a response with
status in [400, 500) is terminal: received on the first attempt it ends
the run at exactly one transport call with the HTTP error raised, and
received on any attempt k it caps the whole run at k + 1 calls — in
particular a transport that always returns 404 causes exactly one
call. -/
theorem retryClassification_and_4xx_terminal :
    (isRetryableError none = true) ∧
    (∀ s : Nat, isRetryableError (some s) = true ↔ (500 ≤ s ∧ s < 600)) ∧
    (∀ (β α : Type) (transport : Nat → FetchResult β) (schema : β → Except String α)
      (context : String) (retries : Nat) (r : HttpRsp β),
      transport 0 = .rsp r → 400 ≤ r.status → r.status < 500 →
      requestInternal transport schema context retries =
        ⟨.error (httpErrorMessage context r), 1, []⟩) ∧
    (∀ (β α : Type) (transport : Nat → FetchResult β) (schema : β → Except String α)
      (context : String) (retries k : Nat) (r : HttpRsp β),
      transport k = .rsp r → 400 ≤ r.status → r.status < 500 →
      (requestInternal transport schema context retries).calls ≤ k + 1) := by
  refine ⟨rfl, ?_, ?_, ?_⟩
  · intro s
    simp [isRetryableError]
  · intro β α transport schema context retries r h0 h4 h5
    have hstep := attemptStep_not_ok transport schema context 0 none r h0 (by omega)
    have hc : ¬(isRetryableError (some r.status) = true ∧ 0 < retries) := by
      rintro ⟨hret, -⟩
      simp [isRetryableError] at hret
      omega
    rw [requestInternal, requestLoop_step_stop transport schema context retries retries 0
      none none _ _ hstep hc, wrapErrorWithContext_httpError]
  · intro β α transport schema context retries k r hk h4 h5
    have hb := requestLoop_calls_le transport schema context retries k r hk (by omega)
      (retries + 1) 0 none none (by omega)
    rw [requestInternal]
    omega

theorem retryClassification_and_4xx_terminal_witness :
    requestInternal (β := Unit) (α := Unit)
      (fun _ => .rsp ⟨404, "Not Found", "nf", ()⟩) (fun _ => .error "bad") "X" 3 =
      ⟨.error (httpErrorMessage "X" (⟨404, "Not Found", "nf", ()⟩ : HttpRsp Unit)), 1, []⟩ :=
  retryClassification_and_4xx_terminal.2.2.1 Unit Unit
    (fun _ => .rsp ⟨404, "Not Found", "nf", ()⟩) (fun _ => .error "bad") "X" 3
    ⟨404, "Not Found", "nf", ()⟩ rfl (by decide) (by decide)

/-- C2: a transport answering 5xx on every attempt makes the executor
fail after exactly `retries + 1` transport calls, with the waits between
calls being `1000 * 2 ^ k` for k = 0 .. retries - 1, in order; and a
transport answering 500 on the first N - 1 attempts and a valid 200 on
attempt N (N ≤ retries + 1) makes it succeed after exactly N calls. -/
theorem backoffRetry_schedule :
    (∀ (β α : Type) (transport : Nat → FetchResult β) (schema : β → Except String α)
      (context : String) (retries : Nat),
      (∀ i, ∃ r, transport i = .rsp r ∧ 500 ≤ r.status ∧ r.status < 600) →
      ∃ e, requestInternal transport schema context retries =
        ⟨.error e, retries + 1, (List.range retries).map getBackoffDelay⟩) ∧
    (∀ k, getBackoffDelay k = 1000 * 2 ^ k) ∧
    (∀ (β α : Type) (transport : Nat → FetchResult β) (schema : β → Except String α)
      (context : String) (retries N : Nat) (v : α),
      1 ≤ N → N ≤ retries + 1 →
      (∀ j, j + 1 < N → ∃ r, transport j = .rsp r ∧ r.status = 500) →
      (∃ r, transport (N - 1) = .rsp r ∧ r.status = 200 ∧ schema r.body = .ok v) →
      (requestInternal transport schema context retries).result = .ok v ∧
      (requestInternal transport schema context retries).calls = N) := by
  refine ⟨?_, fun k => rfl, ?_⟩
  · intro β α transport schema context retries h
    obtain ⟨e, he⟩ := requestLoop_all_5xx transport schema context retries h
      (retries + 1) 0 none none (by omega)
    refine ⟨e, ?_⟩
    rw [requestInternal, he]
    simp [List.range_eq_range']
  · intro β α transport schema context retries N v h1 h2 h500 h200
    have hloop := requestLoop_success_after transport schema context retries (N - 1) v
      (fun j hj => by
        obtain ⟨r, hr, hs⟩ := h500 j (by omega)
        exact ⟨r, hr, by omega, by omega⟩)
      (by
        obtain ⟨r, hr, hs, hv⟩ := h200
        exact ⟨r, hr, by omega, by omega, hv⟩)
      (by omega) (retries + 1) 0 none none (by omega) (by omega)
    refine ⟨?_, ?_⟩
    · rw [requestInternal, hloop]
    · rw [requestInternal, hloop]
      dsimp only
      omega

theorem backoffRetry_schedule_witness :
    ((requestInternal (β := Unit) (α := Unit)
        (fun i => if i < 1 then .rsp ⟨500, "ISE", "e", ()⟩ else .rsp ⟨200, "OK", "ok", ()⟩)
        (fun _ => .ok ()) "X" 3).result = .ok () ∧
      (requestInternal (β := Unit) (α := Unit)
        (fun i => if i < 1 then .rsp ⟨500, "ISE", "e", ()⟩ else .rsp ⟨200, "OK", "ok", ()⟩)
        (fun _ => .ok ()) "X" 3).calls = 2) ∧
    (∃ e, requestInternal (β := Unit) (α := Unit)
      (fun _ => .rsp ⟨503, "Service Unavailable", "e", ()⟩)
      (fun _ => .error "bad") "X" 3 =
      ⟨.error e, 3 + 1, (List.range 3).map getBackoffDelay⟩) := by
  constructor
  · exact backoffRetry_schedule.2.2 Unit Unit
      (fun i => if i < 1 then .rsp ⟨500, "ISE", "e", ()⟩ else .rsp ⟨200, "OK", "ok", ()⟩)
      (fun _ => .ok ()) "X" 3 2 () (by omega) (by omega)
      (fun j hj => ⟨⟨500, "ISE", "e", ()⟩, by
        have hj0 : j = 0 := by omega
        subst hj0
        rfl, rfl⟩)
      ⟨⟨200, "OK", "ok", ()⟩, rfl, rfl, rfl⟩
  · exact backoffRetry_schedule.1 Unit Unit
      (fun _ => .rsp ⟨503, "Service Unavailable", "e", ()⟩) (fun _ => .error "bad") "X" 3
      (fun i => ⟨⟨503, "Service Unavailable", "e", ()⟩, rfl, by decide, by decide⟩)

/-- C3: when a 2xx response's decoded body fails schema validation on
the first attempt, the executor makes exactly one transport call (no
retry of the validation failure) and raises an error whose message is
the context label in brackets followed by the shape-mismatch detail. -/
theorem validationFailure_no_retry :
    ∀ (β α : Type) (transport : Nat → FetchResult β) (schema : β → Except String α)
      (context : String) (retries : Nat) (r : HttpRsp β) (detail : String),
      transport 0 = .rsp r → 200 ≤ r.status → r.status < 300 →
      schema r.body = .error detail →
      requestInternal transport schema context retries =
        ⟨.error ("[" ++ context ++ "] Invalid API response: " ++ detail), 1, []⟩ := by
  intro β α transport schema context retries r detail h0 h2 h3 hv
  have hstep := attemptStep_ok_invalid transport schema context 0 none r detail h0 h2 h3 hv
  have hc : ¬(isRetryableError (some r.status) = true ∧ 0 < retries) := by
    rintro ⟨hret, -⟩
    simp [isRetryableError] at hret
    omega
  rw [requestInternal, requestLoop_step_stop transport schema context retries retries 0
    none none _ _ hstep hc, wrapErrorWithContext_validation]

theorem validationFailure_no_retry_witness :
    requestInternal (β := Unit) (α := Unit) (fun _ => .rsp ⟨200, "OK", "x", ()⟩)
      (fun _ => .error "missing field") "Zhipu" 3 =
      ⟨.error ("[" ++ "Zhipu" ++ "] Invalid API response: " ++ "missing field"), 1, []⟩ :=
  validationFailure_no_retry Unit Unit (fun _ => .rsp ⟨200, "OK", "x", ()⟩)
    (fun _ => .error "missing field") "Zhipu" 3 ⟨200, "OK", "x", ()⟩ "missing field"
    rfl (by decide) (by decide) rfl

-- ============================================================================
-- claim theorems: error wrapping and the adapter boundary
-- ============================================================================

/-- C4 counterexample: a provider query through the factory with context
X whose transport answers 404 records the error message with the "[X]"
prefix twice — the executor already prefixed it and
`handleProviderError` prepends unconditionally — refuting that every
recorded message carries the prefix exactly once. -/
theorem contextPrefix_double_wrap_cx :
    (createProviderQuery (β := Unit) (α := Unit) "X" (fun _ => .error "bad")
      (fun _ _ => "") (fun _ => .rsp ⟨404, "Not Found", "nf", ()⟩) (some "k")).1 =
      some ⟨false, none, some "[X] [X] HTTP error 404: Not Found - nf"⟩ ∧
    jsStartsWith "[X] [X] HTTP error 404: Not Found - nf" "[X] [X]" = true := by
  constructor
  · decide
  · decide

/-- C4 (amended): context prefixing by `wrapErrorWithContext` is
idempotent — wrapping an already `[X]`-prefixed message with X again
leaves it unchanged — but `handleProviderError` prepends `[X] `
unconditionally, so the error recorded for a failed provider query is
the caught message with one more prefix (doubled when the caught
message already carries it). -/
theorem contextPrefix_idempotent_amended :
    (∀ ctx msg, wrapErrorWithContext (wrapErrorWithContext msg ctx) ctx =
      wrapErrorWithContext msg ctx) ∧
    (∀ ctx msg, wrapErrorWithContext ("[" ++ ctx ++ "] " ++ msg) ctx =
      "[" ++ ctx ++ "] " ++ msg) ∧
    (∀ ctx msg, handleProviderError msg ctx =
      ⟨false, none, some ("[" ++ ctx ++ "] " ++ msg)⟩) := by
  refine ⟨?_, ?_, fun ctx msg => rfl⟩
  · intro ctx msg
    by_cases h : jsStartsWith msg ("[" ++ ctx ++ "]") = true
    · simp [wrapErrorWithContext, h]
    · have hin : wrapErrorWithContext msg ctx = "[" ++ ctx ++ "] " ++ msg := by
        simp [wrapErrorWithContext, h]
      rw [hin, wrapErrorWithContext_of_prefixed ctx "] " msg [' '] rfl]
  · intro ctx msg
    exact wrapErrorWithContext_of_prefixed ctx "] " msg [' '] rfl

/-- C5: adapters never let a raised error escape — the factory query is
absent for a missing/empty key, returns a success record with output on
executor success, and converts an executor failure into a
`{success:false, error}` record (via handleProviderError); the Kimi
adapter likewise always returns absent, a success record, or a failure
record carrying the caught message. -/
theorem adapterBoundary_no_raise :
    (∀ (β α : Type) (name : String) (schema : β → Except String α)
      (transform : α → String → String) (transport : Nat → FetchResult β),
      (createProviderQuery name schema transform transport none).1 = none ∧
      (createProviderQuery name schema transform transport (some "")).1 = none) ∧
    (∀ (β α : Type) (name : String) (schema : β → Except String α)
      (transform : α → String → String) (transport : Nat → FetchResult β)
      (key : String), key ≠ "" →
      (∀ v, (requestInternal transport schema name DEFAULT_RETRIES).result = .ok v →
        (createProviderQuery name schema transform transport (some key)).1 =
          some ⟨true, some (transform v key), none⟩) ∧
      (∀ m, (requestInternal transport schema name DEFAULT_RETRIES).result = .error m →
        (createProviderQuery name schema transform transport (some key)).1 =
          some ⟨false, none, some ("[" ++ name ++ "] " ++ m)⟩)) ∧
    (∀ (δ : Type) (formatOutput : KimiBody δ → String → String)
      (apiError : Int → String → String) (authData : Option KimiAuth)
      (fr : Except String (KimiRsp δ)),
      queryKimiWithConfig formatOutput apiError authData fr = none ∨
      (∃ out, queryKimiWithConfig formatOutput apiError authData fr =
        some ⟨true, some out, none⟩) ∨
      (∃ e, queryKimiWithConfig formatOutput apiError authData fr =
        some ⟨false, none, some e⟩)) := by
  refine ⟨fun β α name schema transform transport => ⟨rfl, rfl⟩, ?_, ?_⟩
  · intro β α name schema transform transport key hkey
    have hk : (key == "") = false := by simpa using hkey
    constructor
    · intro v hv
      simp [createProviderQuery, hk, hv]
    · intro m hm
      simp [createProviderQuery, hk, hm, handleProviderError]
  · intro δ formatOutput apiError authData fr
    match authData with
    | none => exact Or.inl rfl
    | some a =>
      by_cases hk : (a.key == "") = true
      · exact Or.inl (by simp [queryKimiWithConfig, hk])
      · cases hres : fetchKimiBalance apiError fr with
        | ok b =>
          exact Or.inr (Or.inl ⟨formatOutput b a.key,
            by simp [queryKimiWithConfig, hk, hres]⟩)
        | error e =>
          exact Or.inr (Or.inr ⟨e, by simp [queryKimiWithConfig, hk, hres]⟩)

theorem adapterBoundary_no_raise_witness :
    (createProviderQuery (β := Unit) (α := Unit) "X" (fun _ => .ok ())
      (fun _ _ => "out") (fun _ => .rsp ⟨200, "OK", "b", ()⟩) (some "key1")).1 =
      some ⟨true, some "out", none⟩ := by
  have h := (adapterBoundary_no_raise.2.1 Unit Unit "X" (fun _ => .ok ())
    (fun _ _ => "out") (fun _ => .rsp ⟨200, "OK", "b", ()⟩) "key1"
    (by decide)).1 () rfl
  simpa using h

/-- C6: an absent or field-deficient credential yields an absent result
with zero network calls (shown for the Zhipu adapter's guard and the
factory guards); every non-absent outcome of the modelled adapters has
the output populated exactly when success is true and the error
populated exactly when success is false; and collectResult puts an
absent result in neither the success list nor the error list. -/
theorem absentCredential_invariants :
    (∀ (δ : Type) (fo : ZhipuBody δ → String → String)
      (ae : Int → String → String) (authData : Option ZhipuAuthData)
      (fr : Except String (ZhipuRsp δ)),
      (authData = none ∨ ∃ a, authData = some a ∧
        (a.type ≠ "api" ∨ a.key = none ∨ a.key = some "")) →
      queryUsage fo ae authData fr = (none, 0)) ∧
    (∀ (β α : Type) (name : String) (schema : β → Except String α)
      (transform : α → String → String) (transport : Nat → FetchResult β),
      createProviderQuery name schema transform transport none = (none, 0) ∧
      createProviderQuery name schema transform transport (some "") = (none, 0)) ∧
    (∀ (η α : Type) (name : String) (parseHeaders : η → Option α)
      (transform : Option α → String → String)
      (fetchResult : Except String (HeaderRsp η)),
      createProviderQueryWithHeaders name parseHeaders transform none fetchResult =
        (none, 0) ∧
      createProviderQueryWithHeaders name parseHeaders transform (some "") fetchResult =
        (none, 0)) ∧
    (∀ (δ : Type) (fo : ZhipuBody δ → String → String)
      (ae : Int → String → String) (authData : Option ZhipuAuthData)
      (fr : Except String (ZhipuRsp δ)) (r : QueryResult),
      (queryUsage fo ae authData fr).1 = some r →
      ((r.success = true ∧ r.output.isSome ∧ r.error = none) ∨
        (r.success = false ∧ r.error.isSome ∧ r.output = none))) ∧
    (∀ (β α : Type) (name : String) (schema : β → Except String α)
      (transform : α → String → String) (transport : Nat → FetchResult β)
      (apiKey : Option String) (r : QueryResult),
      (createProviderQuery name schema transform transport apiKey).1 = some r →
      ((r.success = true ∧ r.output.isSome ∧ r.error = none) ∨
        (r.success = false ∧ r.error.isSome ∧ r.output = none))) ∧
    (∀ (δ : Type) (fo : KimiBody δ → String → String)
      (ae : Int → String → String) (authData : Option KimiAuth)
      (fr : Except String (KimiRsp δ)) (r : QueryResult),
      queryKimiWithConfig fo ae authData fr = some r →
      ((r.success = true ∧ r.output.isSome ∧ r.error = none) ∨
        (r.success = false ∧ r.error.isSome ∧ r.output = none))) ∧
    (∀ (title : String) (results errors : List String),
      collectResult none title results errors = (results, errors)) := by
  refine ⟨?_, fun β α name schema transform transport => ⟨rfl, rfl⟩,
    fun η α name parseHeaders transform fetchResult => ⟨rfl, rfl⟩, ?_, ?_, ?_,
    fun title results errors => rfl⟩
  · intro δ fo ae authData fr h
    rcases h with h | ⟨a, rfl, ha⟩
    · subst h
      rfl
    · have hg : (a.type == "api" && !jsFalsyStr a.key) = false := by
        rcases ha with h1 | h2 | h3
        · simp [h1]
        · simp [jsFalsyStr, h2]
        · simp [jsFalsyStr, h3]
      simp [queryUsage, hg]
  · intro δ fo ae authData fr r h
    match authData with
    | none => simp [queryUsage] at h
    | some a =>
      by_cases hg : (a.type == "api" && !jsFalsyStr a.key) = true
      · cases hres : fetchUsage ae fr with
        | ok d =>
          simp [queryUsage, hg, hres] at h
          subst h
          left
          simp
        | error m =>
          simp [queryUsage, hg, hres] at h
          subst h
          right
          simp
      · simp [queryUsage, hg] at h
  · intro β α name schema transform transport apiKey r h
    match apiKey with
    | none => simp [createProviderQuery] at h
    | some key =>
      by_cases hk : (key == "") = true
      · simp [createProviderQuery, hk] at h
      · cases hres : (requestInternal transport schema name DEFAULT_RETRIES).result with
        | ok v =>
          simp [createProviderQuery, hk, hres] at h
          subst h
          left
          simp
        | error m =>
          simp [createProviderQuery, hk, hres, handleProviderError] at h
          subst h
          right
          simp
  · intro δ fo ae authData fr r h
    match authData with
    | none => simp [queryKimiWithConfig] at h
    | some a =>
      by_cases hk : (a.key == "") = true
      · simp [queryKimiWithConfig, hk] at h
      · cases hres : fetchKimiBalance ae fr with
        | ok b =>
          simp [queryKimiWithConfig, hk, hres] at h
          subst h
          left
          simp
        | error e =>
          simp [queryKimiWithConfig, hk, hres] at h
          subst h
          right
          simp

theorem absentCredential_invariants_witness :
    queryUsage (δ := Unit) (fun _ _ => "") (fun _ _ => "")
      (some ⟨"oauth", none⟩) (.error "e") = (none, 0) :=
  absentCredential_invariants.1 Unit (fun _ _ => "") (fun _ _ => "")
    (some ⟨"oauth", none⟩) (.error "e")
    (Or.inr ⟨⟨"oauth", none⟩, rfl, Or.inl (by decide)⟩)

-- ============================================================================
-- claim theorems: formatting utilities
-- ============================================================================

lemma progressBar_filled_le (p : ℚ) (w : Nat) :
    (jsRound (max 0 (min 100 p) / 100 * (w : ℚ))).toNat ≤ w := by
  have hc0 : (0 : ℚ) ≤ max 0 (min 100 p) := le_max_left 0 _
  have hc1 : max 0 (min 100 p) ≤ 100 := max_le (by norm_num) (min_le_left _ _)
  have hw0 : (0 : ℚ) ≤ (w : ℚ) := by positivity
  have hx1 : max 0 (min 100 p) / 100 * (w : ℚ) ≤ (w : ℚ) := by
    have hd : max 0 (min 100 p) / 100 ≤ 1 := by
      rw [div_le_one (by norm_num : (0 : ℚ) < 100)]
      exact hc1
    calc max 0 (min 100 p) / 100 * (w : ℚ) ≤ 1 * (w : ℚ) :=
      mul_le_mul_of_nonneg_right hd hw0
    _ = (w : ℚ) := one_mul _
  have hfl : jsRound (max 0 (min 100 p) / 100 * (w : ℚ)) < (w : Int) + 1 := by
    rw [jsRound]
    apply Int.floor_lt.mpr
    push_cast
    linarith
  omega

/-- C7: the progress bar first clamps the percent to [0, 100]; its
output always has exactly `width` characters, of which exactly
`round(clamped / 100 * width)` are the filled glyph; and the spec's
example inputs 0, 100, 50, -5, 150 at width 10 render as stated. -/
theorem progressBar_spec :
    (∀ (p : ℚ) (w : Nat), (createProgressBar p w).length = w) ∧
    (∀ (p : ℚ) (w : Nat), createProgressBar p w =
      createProgressBar (max 0 (min 100 p)) w) ∧
    (∀ (p : ℚ) (w : Nat), (createProgressBar p w).data.count '█' =
      (jsRound (max 0 (min 100 p) / 100 * (w : ℚ))).toNat) ∧
    createProgressBar 0 10 = "░░░░░░░░░░" ∧
    createProgressBar 100 10 = "██████████" ∧
    createProgressBar 50 10 = "█████░░░░░" ∧
    createProgressBar (-5) 10 = createProgressBar 0 10 ∧
    createProgressBar 150 10 = createProgressBar 100 10 := by
  refine ⟨?_, ?_, ?_, ?_, ?_, ?_, ?_, ?_⟩
  · intro p w
    have hle := progressBar_filled_le p w
    simp [createProgressBar]
    omega
  · intro p w
    have h : max 0 (min 100 (max 0 (min 100 p))) = max 0 (min 100 p) := by
      have hc0 : (0 : ℚ) ≤ max 0 (min 100 p) := le_max_left 0 _
      have hc1 : max 0 (min 100 p) ≤ 100 := max_le (by norm_num) (min_le_left _ _)
      rw [min_eq_right hc1, max_eq_right hc0]
    simp only [createProgressBar, h]
  · intro p w
    simp [createProgressBar, List.count_append, List.count_replicate,
      show ('░' == '█') = false from rfl]
  · have h : (jsRound (max 0 (min 100 (0 : ℚ)) / 100 * ((10 : Nat) : ℚ))).toNat = 0 := by
      have h2 : jsRound (max 0 (min 100 (0 : ℚ)) / 100 * ((10 : Nat) : ℚ)) = 0 := by
        norm_num [jsRound, min_def, max_def]
      rw [h2]
      rfl
    simp only [createProgressBar, h]
    decide
  · have h : (jsRound (max 0 (min 100 (100 : ℚ)) / 100 * ((10 : Nat) : ℚ))).toNat = 10 := by
      have h2 : jsRound (max 0 (min 100 (100 : ℚ)) / 100 * ((10 : Nat) : ℚ)) = 10 := by
        norm_num [jsRound, min_def, max_def]
      rw [h2]
      rfl
    simp only [createProgressBar, h]
    decide
  · have h : (jsRound (max 0 (min 100 (50 : ℚ)) / 100 * ((10 : Nat) : ℚ))).toNat = 5 := by
      have h2 : jsRound (max 0 (min 100 (50 : ℚ)) / 100 * ((10 : Nat) : ℚ)) = 5 := by
        norm_num [jsRound, min_def, max_def]
      rw [h2]
      rfl
    simp only [createProgressBar, h]
    decide
  · have h : max 0 (min 100 (-5 : ℚ)) = max 0 (min 100 (0 : ℚ)) := by
      norm_num [min_def, max_def]
    simp only [createProgressBar, h]
  · have h : max 0 (min 100 (150 : ℚ)) = max 0 (min 100 (100 : ℚ)) := by
      norm_num [min_def, max_def]
    simp only [createProgressBar, h]

/-- C8 counterexample: the 12-character string "abcd****efgh" is
returned unchanged by the masking function even though it is longer
than 8 characters — its first four characters, the placeholder and its
last four characters happen to reassemble the input — so "unchanged iff
at most 8 characters" fails in the only-if direction. -/
theorem maskString_unchanged_iff_cx :
    maskString "abcd****efgh" 4 = "abcd****efgh" ∧
    ("abcd****efgh" : String).length = 12 := by
  constructor
  · decide
  · decide

/-- C8 (amended): with the default of 4 shown characters, a string of at
most 8 characters is returned unchanged, and a longer string is masked
to its first 4 characters, the fixed "****" placeholder, and its last 4
characters (a masked output can coincide with the input, as for
"abcd****efgh"); "abcd1234efgh" masks to "abcd****efgh" and the
8-character "abcd1234" is returned unmasked. -/
theorem maskString_amended :
    (∀ s : String, s.length ≤ 8 → maskString s 4 = s) ∧
    (∀ s : String, 8 < s.length →
      maskString s 4 = String.mk (s.data.take 4) ++ "****" ++
        String.mk (s.data.drop (s.data.length - 4))) ∧
    maskString "abcd1234efgh" 4 = "abcd****efgh" ∧
    maskString "abcd1234" 4 = "abcd1234" := by
  refine ⟨?_, ?_, by decide, by decide⟩
  · intro s h
    rw [maskString, if_pos (by omega)]
  · intro s h
    rw [maskString, if_neg (by omega)]
    simp

theorem maskString_amended_witness :
    maskString "ab" 4 = "ab" ∧
    maskString "abcdefghij" 4 = String.mk ("abcdefghij".data.take 4) ++ "****" ++
      String.mk ("abcdefghij".data.drop ("abcdefghij".data.length - 4)) :=
  ⟨maskString_amended.1 "ab" (by decide), maskString_amended.2.1 "abcdefghij" (by decide)⟩

-- ============================================================================
-- claim theorems: aggregator and header-based providers
-- ============================================================================

/-- C9 counterexample: when reading or parsing the credential file
fails, the aggregator returns the auth-error message for that path, not
the fixed "no accounts configured" message — a parse failure is not
treated as "every record absent". -/
theorem aggregator_parse_failure_cx :
    executeMyStatus (γ := Unit) enMsgs "/home/user/.local/share/opencode/auth.json"
      (.error "ENOENT: no such file or directory") (fun _ => none) (fun _ => none)
      (fun _ => none) none =
      "❌ Failed to read auth file: /home/user/.local/share/opencode/auth.json\nError: ENOENT: no such file or directory" ∧
    executeMyStatus (γ := Unit) enMsgs "/home/user/.local/share/opencode/auth.json"
      (.error "ENOENT: no such file or directory") (fun _ => none) (fun _ => none)
      (fun _ => none) none ≠ enMsgs.noAccounts := by
  constructor
  · decide
  · decide

/-- C9 (amended): when the credential file parses and zero providers are
configured (all four queries return absent), the aggregator returns the
fixed "no accounts configured" message; but when the credential file
read/parse fails, it returns the auth-error message for that path
instead (still a returned text, never a raised error). -/
theorem aggregator_noAccounts_amended :
    (∀ (γ : Type) (msgs : Msgs) (authPath : String) (auth : γ)
      (q1 q2 q3 : γ → Option QueryResult) (g : Option QueryResult),
      q1 auth = none → q2 auth = none → q3 auth = none → g = none →
      executeMyStatus msgs authPath (.ok auth) q1 q2 q3 g = msgs.noAccounts) ∧
    (∀ (γ : Type) (msgs : Msgs) (authPath e : String)
      (q1 q2 q3 : γ → Option QueryResult) (g : Option QueryResult),
      executeMyStatus msgs authPath (.error e) q1 q2 q3 g =
        msgs.authError authPath e) := by
  constructor
  · intro γ msgs authPath auth q1 q2 q3 g h1 h2 h3 h4
    simp [executeMyStatus, collectResult, h1, h2, h3, h4]
  · intro γ msgs authPath e q1 q2 q3 g
    rfl

theorem aggregator_noAccounts_amended_witness :
    executeMyStatus (γ := Unit) enMsgs "/p" (.ok ()) (fun _ => none) (fun _ => none)
      (fun _ => none) none = enMsgs.noAccounts :=
  aggregator_noAccounts_amended.1 Unit enMsgs "/p" () (fun _ => none) (fun _ => none)
    (fun _ => none) none rfl rfl rfl rfl

/-- C10: a header-based provider query returns a success record for any
received response, whatever its status code (401 and 500 included), with
the transform applied to the parsed headers — fed null when the
rate-limit headers are absent, which for the Anthropic adapter renders
the "no quota data" body — and returns a failure record only when the
fetch itself threw (network error or timeout). -/
theorem headerProvider_success_on_any_status :
    (∀ (η α : Type) (name : String) (parseHeaders : η → Option α)
      (transform : Option α → String → String) (key : String), key ≠ "" →
      (∀ rsp : HeaderRsp η,
        createProviderQueryWithHeaders name parseHeaders transform (some key) (.ok rsp) =
          (some ⟨true, some (transform (parseHeaders rsp.headers) key), none⟩, 1)) ∧
      (∀ m, createProviderQueryWithHeaders name parseHeaders transform (some key)
          (.error m) = (some ⟨false, none, some ("[" ++ name ++ "] " ++ m)⟩, 1))) ∧
    (∀ (pint : String → Int) (h : AnthropicHeaders),
      jsFalsyStr h.requestsRemaining = true → jsFalsyStr h.tokensRemaining = true →
      anthropicParseHeaders pint h = none) ∧
    (∀ (strs : AnthropicStrings) (ds : DurationStrings) (localeNum : Int → String)
      (now : Int) (apiKey : String),
      formatAnthropicUsage strs ds localeNum now none apiKey =
        String.intercalate "\n" [strs.account ++ " " ++ maskString apiKey 4 ++
          " (Anthropic Claude)", "", strs.noQuotaData]) := by
  refine ⟨?_, ?_, fun strs ds localeNum now apiKey => rfl⟩
  · intro η α name parseHeaders transform key hk
    have hk2 : (key == "") = false := by simpa using hk
    constructor
    · intro rsp
      cases hph : parseHeaders rsp.headers with
      | none => simp [createProviderQueryWithHeaders, hk2, hph]
      | some d => simp [createProviderQueryWithHeaders, hk2, hph]
    · intro m
      simp [createProviderQueryWithHeaders, hk2, handleProviderError]
  · intro pint h h1 h2
    simp [anthropicParseHeaders, h1, h2]

theorem headerProvider_success_on_any_status_witness :
    createProviderQueryWithHeaders (η := Unit) (α := Unit) "Anthropic" (fun _ => none)
      (fun _ _ => "nq") (some "k") (.ok ⟨401, ()⟩) = (some ⟨true, some "nq", none⟩, 1) := by
  have h := (headerProvider_success_on_any_status.1 Unit Unit "Anthropic" (fun _ => none)
    (fun _ _ => "nq") "k" (by decide)).1 ⟨401, ()⟩
  simpa using h
